import Mathlib

/-!
Verification of the dual-task text-processing tool (`src/app.py`).

The development shallowly embeds the three program functions
(`fetch_models`, `call_openrouter`, `process_tasks`) and the button
handler of the page script.  Network effects are made explicit: each
provider call is parametrised by a `CallOutcome` (the provider either
returns a message text or the call raises an exception carrying a
message), and the model-catalog request is parametrised by a
`FetchOutcome`.  The nondeterministic completion order of the two
concurrent futures is an explicit argument: a list of task names in the
order `as_completed` yields them, assumed to be a permutation of the two
submitted tasks.  Python strings are Lean `String`s; Python substring
tests, `str.lower` and `str.strip` are implemented on the character
lists so that all definitions evaluate.
-/

namespace App

/-- The dictionary value returned by `call_openrouter` (src/app.py lines
97-100 and 114-117): a `success` flag and a `content` string. -/
structure TaskResult where
  success : Bool
  content : String
deriving Repr, DecidableEq

/-- One entry of the `messages` array of the chat-completion request
(src/app.py lines 90-93). -/
structure ChatMessage where
  role : String
  content : String
deriving Repr, DecidableEq

/-- The chat-completion request body assembled by `call_openrouter`
(src/app.py lines 88-95).  The sampling temperature `0.7` is a literal
constant in the source; it is represented exactly as 7 tenths to stay in
`Nat`. -/
structure ChatRequest where
  model : String
  messages : List ChatMessage
  temperature_tenths : Nat
deriving Repr, DecidableEq

/-- The request issued by `client.chat.completions.create` (src/app.py
lines 88-95): a single system/user message pair and temperature 0.7. -/
def build_request (model system_prompt user_content : String) : ChatRequest :=
  { model := model,
    messages := [⟨"system", system_prompt⟩, ⟨"user", user_content⟩],
    temperature_tenths := 7 }

/-- The requests issued by one invocation of `call_openrouter`: the
function performs exactly one `create` call (src/app.py line 88). -/
def requests_issued (api_key model system_prompt user_content : String) :
    List ChatRequest :=
  [build_request model system_prompt user_content]

/-- Containment of `needle` in a character list, Python's `needle in hay`
substring test. -/
def containsSeq (needle : List Char) : List Char → Bool
  | [] => needle.isEmpty
  | c :: rest => needle.isPrefixOf (c :: rest) || containsSeq needle rest

/-- Python's `needle in hay` on strings. -/
def strContains (hay needle : String) : Bool :=
  containsSeq needle.data hay.data

/-- Python's `str.lower` (for the ASCII range used by the error
messages), character by character. -/
def lower (s : String) : String :=
  ⟨s.data.map Char.toLower⟩

/-- Python's `str.strip`: remove leading and trailing whitespace. -/
def py_strip (s : String) : String :=
  ⟨((s.data.dropWhile Char.isWhitespace).reverse.dropWhile Char.isWhitespace).reverse⟩

/-- The error-message normalisation in the `except` branch of
`call_openrouter` (src/app.py lines 103-112): an if/elif chain of
substring tests on `str(e)`, in source order. -/
def normalize_error (error_msg : String) : String :=
  if strContains error_msg "401" || strContains error_msg "Unauthorized" then
    "API Key 无效或已过期"
  else if strContains error_msg "402" || strContains error_msg "Payment" then
    "账户余额不足，请充值"
  else if strContains error_msg "429" || strContains (lower error_msg) "rate" then
    "请求频率过高，请稍后重试"
  else if strContains (lower error_msg) "timeout" then
    "请求超时，请重试"
  else
    error_msg

/-- The outcome of one provider call, the environment's contribution:
either the call returns and `response.choices[0].message.content` is
`content`, or somewhere in the `try` block an exception with message
`str(e) = message` is raised (transport error, non-2xx status raised by
the client library, malformed body). -/
inductive CallOutcome where
  | ok (content : String)
  | exn (message : String)
deriving Repr, DecidableEq

/-- `call_openrouter` (src/app.py lines 76-117): the whole body is a
`try`/`except Exception` statement, so the function returns a dictionary
on every outcome: the success dictionary on a normal return, and the
failure dictionary built from the normalised exception message
otherwise. -/
def call_openrouter (api_key model system_prompt user_content : String)
    (outcome : CallOutcome) : TaskResult :=
  match outcome with
  | .ok content => { success := true, content := content }
  | .exn message => { success := false, content := "错误: " ++ normalize_error message }

/-- The keys of the `results` dictionary in `process_tasks`
(src/app.py line 122): the two submitted tasks. -/
inductive TaskName where
  | task_a
  | task_b
deriving Repr, DecidableEq

/-- One iteration of the `as_completed` loop in `process_tasks`
(src/app.py lines 134-136): the completed future's result is stored
under its task name; `task_a` ran `call_openrouter(api_key, model,
prompt_a, article)` and `task_b` ran it with `prompt_b`. -/
def record_result (api_key model article prompt_a prompt_b : String)
    (oa ob : CallOutcome)
    (results : Option TaskResult × Option TaskResult) (t : TaskName) :
    Option TaskResult × Option TaskResult :=
  match t with
  | .task_a => (some (call_openrouter api_key model prompt_a article oa), results.2)
  | .task_b => (results.1, some (call_openrouter api_key model prompt_b article ob))

/-- `process_tasks` (src/app.py lines 120-138): `results` starts as
`(None, None)`, the `as_completed` loop fills the slot of each completed
task, and the pair `(results["task_a"], results["task_b"])` is returned.
`oa`/`ob` are the outcomes of the two client calls and
`completion_order` is the order in which `as_completed` yields the two
futures. -/
def process_tasks (api_key model article prompt_a prompt_b : String)
    (oa ob : CallOutcome) (completion_order : List TaskName) :
    Option TaskResult × Option TaskResult :=
  completion_order.foldl (record_result api_key model article prompt_a prompt_b oa ob)
    (none, none)

/-- `DEFAULT_MODELS` (src/app.py lines 20-24). -/
def DEFAULT_MODELS : List String :=
  ["deepseek/deepseek-chat", "anthropic/claude-3.5-sonnet", "openai/gpt-4o"]

/-- The outcome of the models request in `fetch_models`: either a 2xx
JSON body whose `data` array yields, per entry, its `"id"` field
(`none` when the key is missing, which makes the comprehension raise
`KeyError`), or any exception (network error, `raise_for_status`,
JSON decoding). -/
inductive FetchOutcome where
  | response (entries : List (Option String))
  | failure (message : String)
deriving Repr, DecidableEq

/-- The list comprehension `[model["id"] for model in data.get("data", [])]`
(src/app.py line 68): collects every `"id"` field, raising (`none`) as
soon as one entry lacks the key. -/
def extract_ids : List (Option String) → Option (List String)
  | [] => some []
  | some i :: rest => (extract_ids rest).map (fun ids => i :: ids)
  | none :: _ => none

/-- Python's `sorted` on a list of strings: lexicographic by character
(code point), implemented by insertion sort, which produces the same
sorted permutation. -/
def sorted_strings (l : List String) : List String :=
  List.insertionSort (fun a b => a.data ≤ b.data) l

/-- `fetch_models` (src/app.py lines 51-73): on any exception the static
`DEFAULT_MODELS` list is returned; on a parsed response the extracted id
list is sorted, with the empty-list (falsy) case also falling back to
`DEFAULT_MODELS` via `sorted(models) if models else DEFAULT_MODELS`. -/
def fetch_models (outcome : FetchOutcome) : List String :=
  match outcome with
  | .failure _ => DEFAULT_MODELS
  | .response entries =>
    match extract_ids entries with
    | none => DEFAULT_MODELS
    | some models => if models.isEmpty then DEFAULT_MODELS else sorted_strings models

/-- The parameter list of `def process_tasks(api_key, model, article,
prompt_a, prompt_b)` (src/app.py line 120); none has a default. -/
def process_tasks_params : List String :=
  ["api_key", "model", "article", "prompt_a", "prompt_b"]

/-- Python positional-argument binding: pair each parameter with the
corresponding positional argument; the call raises `TypeError` (`none`)
when a parameter without a default is left without an argument, or when
arguments are left over. -/
def bindArgs (params : List String) (args : List String) :
    Option (List (String × String)) :=
  match params, args with
  | [], [] => some []
  | [], _ :: _ => none
  | _ :: _, [] => none
  | p :: ps, a :: rest => (bindArgs ps rest).map (fun l => (p, a) :: l)

/-- What one run of the button branch (src/app.py lines 226-256) ends
as: a validation error message, a rendered result pair, or an uncaught
`TypeError`. -/
inductive HandlerOutcome where
  | validation_error (message : String)
  | rendered (left right : TaskResult)
  | type_error
deriving Repr, DecidableEq

/-- The `if process_btn:` branch (src/app.py lines 226-256): validate
`api_key` and `article.strip()`, then evaluate the call
`process_tasks(api_key, selected_model, article)` - three positional
arguments bound against the five required parameters - and render the
two slots of the returned pair. -/
def button_handler (api_key selected_model article : String)
    (oa ob : CallOutcome) (completion_order : List TaskName) : HandlerOutcome :=
  if api_key = "" then .validation_error "请在侧边栏输入 API Key"
  else if py_strip article = "" then .validation_error "请输入要处理的文章内容"
  else
    match bindArgs process_tasks_params [api_key, selected_model, article] with
    | none => .type_error
    | some bound =>
      match bound with
      | [(_, k), (_, m), (_, art), (_, pa), (_, pb)] =>
        match process_tasks k m art pa pb oa ob completion_order with
        | (some left, some right) => .rendered left right
        | _ => .type_error
      | _ => .type_error

/-- A list that is a permutation of the two distinct task names is one
of the two orders.  (`as_completed` yields each submitted future exactly
once.) -/
theorem perm_pair (l : List TaskName)
    (h : l.Perm [TaskName.task_a, TaskName.task_b]) :
    l = [TaskName.task_a, TaskName.task_b] ∨
      l = [TaskName.task_b, TaskName.task_a] := by
  rcases l with _ | ⟨a, _ | ⟨b, _ | ⟨c, t⟩⟩⟩
  · have := h.length_eq
    simp at this
  · have := h.length_eq
    simp at this
  · cases a <;> cases b
    · exact absurd h (by decide)
    · exact Or.inl rfl
    · exact Or.inr rfl
    · exact absurd h (by decide)
  · have := h.length_eq
    simp at this

/-- Sortedness of `sorted_strings`. -/
theorem sorted_strings_sorted (l : List String) :
    List.Sorted (fun a b : String => a.data ≤ b.data) (sorted_strings l) := by
  haveI : IsTotal String (fun a b : String => a.data ≤ b.data) :=
    ⟨fun a b => le_total a.data b.data⟩
  haveI : IsTrans String (fun a b : String => a.data ≤ b.data) :=
    ⟨fun _ _ _ => le_trans⟩
  exact List.sorted_insertionSort _ l

/-- `sorted_strings` permutes its input. -/
theorem sorted_strings_perm (l : List String) : (sorted_strings l).Perm l :=
  List.perm_insertionSort _ l

/-- C1: for every pair of client-call outcomes and every completion
order of the two futures, `process_tasks` puts the `prompt_a` task's
result in the first slot and the `prompt_b` task's result in the second,
and two runs that differ only in completion order return the same
pair. -/
theorem process_tasks_order_invariance
    (api_key model article prompt_a prompt_b : String) (oa ob : CallOutcome)
    (order order' : List TaskName)
    (h : order.Perm [TaskName.task_a, TaskName.task_b])
    (h' : order'.Perm [TaskName.task_a, TaskName.task_b]) :
    process_tasks api_key model article prompt_a prompt_b oa ob order =
      (some (call_openrouter api_key model prompt_a article oa),
       some (call_openrouter api_key model prompt_b article ob))
    ∧ process_tasks api_key model article prompt_a prompt_b oa ob order =
      process_tasks api_key model article prompt_a prompt_b oa ob order' := by
  rcases perm_pair order h with rfl | rfl <;>
    rcases perm_pair order' h' with rfl | rfl <;> exact ⟨rfl, rfl⟩

/-- C1 witness: concrete outcomes, the two completion orders. -/
theorem process_tasks_order_invariance_witness :
    process_tasks "k" "m" "art" "pa" "pb" (.ok "left") (.ok "right")
        [TaskName.task_b, TaskName.task_a] =
      (some (call_openrouter "k" "m" "pa" "art" (.ok "left")),
       some (call_openrouter "k" "m" "pb" "art" (.ok "right")))
    ∧ process_tasks "k" "m" "art" "pa" "pb" (.ok "left") (.ok "right")
        [TaskName.task_b, TaskName.task_a] =
      process_tasks "k" "m" "art" "pa" "pb" (.ok "left") (.ok "right")
        [TaskName.task_a, TaskName.task_b] :=
  process_tasks_order_invariance "k" "m" "art" "pa" "pb" (.ok "left") (.ok "right")
    [TaskName.task_b, TaskName.task_a] [TaskName.task_a, TaskName.task_b]
    (by decide) (by decide)

/-- C2: for all inputs and outcomes - both calls may fail - the returned
pair has both slots populated with a `TaskResult`, a structure with a
`Bool` `success` field and a `String` `content` field. -/
theorem process_tasks_slots_populated
    (api_key model article prompt_a prompt_b : String)
    (oa ob : CallOutcome) (order : List TaskName)
    (h : order.Perm [TaskName.task_a, TaskName.task_b]) :
    ∃ ra rb : TaskResult,
      process_tasks api_key model article prompt_a prompt_b oa ob order =
        (some ra, some rb) := by
  rcases perm_pair order h with rfl | rfl
  · exact ⟨_, _, rfl⟩
  · exact ⟨_, _, rfl⟩

/-- C2 witness: both calls fail, right-then-left completion order. -/
theorem process_tasks_slots_populated_witness :
    ∃ ra rb : TaskResult,
      process_tasks "k" "m" "art" "pa" "pb" (.exn "x") (.exn "y")
        [TaskName.task_b, TaskName.task_a] = (some ra, some rb) :=
  process_tasks_slots_populated "k" "m" "art" "pa" "pb" (.exn "x") (.exn "y")
    [TaskName.task_b, TaskName.task_a] (by decide)

/-- C3: whatever exception the `try` block raises, `call_openrouter`
returns the failure dictionary built from the normalised message - the
blanket `except Exception` branch never re-raises, so in the embedding
the function is total with result type `TaskResult`, and every
exceptional outcome maps to `success = false` with the normalised
content. -/
theorem call_openrouter_never_raises
    (api_key model system_prompt user_content msg : String) :
    call_openrouter api_key model system_prompt user_content (.exn msg) =
      { success := false, content := "错误: " ++ normalize_error msg }
    ∧ (call_openrouter api_key model system_prompt user_content (.exn msg)).success
      = false :=
  ⟨rfl, rfl⟩

/-- C4: when one call fails and the other succeeds, the failing task's
slot holds the failure dictionary and the other slot holds its own
successful content; moreover each slot's value is a function of its own
task's outcome only - it is unchanged under any change of the other
task's outcome and of the completion order. -/
theorem process_tasks_failure_isolation
    (api_key model article prompt_a prompt_b msg c : String)
    (oa oa' ob ob' : CallOutcome) (order order' : List TaskName)
    (h : order.Perm [TaskName.task_a, TaskName.task_b])
    (h' : order'.Perm [TaskName.task_a, TaskName.task_b]) :
    process_tasks api_key model article prompt_a prompt_b (.exn msg) (.ok c) order =
      (some ⟨false, "错误: " ++ normalize_error msg⟩, some ⟨true, c⟩)
    ∧ process_tasks api_key model article prompt_a prompt_b (.ok c) (.exn msg) order =
      (some ⟨true, c⟩, some ⟨false, "错误: " ++ normalize_error msg⟩)
    ∧ (process_tasks api_key model article prompt_a prompt_b oa ob order).1 =
      (process_tasks api_key model article prompt_a prompt_b oa ob' order').1
    ∧ (process_tasks api_key model article prompt_a prompt_b oa ob order).2 =
      (process_tasks api_key model article prompt_a prompt_b oa' ob order').2 := by
  rcases perm_pair order h with rfl | rfl <;>
    rcases perm_pair order' h' with rfl | rfl <;> exact ⟨rfl, rfl, rfl, rfl⟩

/-- C4 witness: left call fails with "boom", right call succeeds with
"fine", both completion orders exercised. -/
theorem process_tasks_failure_isolation_witness :
    process_tasks "k" "m" "art" "pa" "pb" (.exn "boom") (.ok "fine")
        [TaskName.task_b, TaskName.task_a] =
      (some ⟨false, "错误: " ++ normalize_error "boom"⟩, some ⟨true, "fine"⟩)
    ∧ process_tasks "k" "m" "art" "pa" "pb" (.ok "fine") (.exn "boom")
        [TaskName.task_b, TaskName.task_a] =
      (some ⟨true, "fine"⟩, some ⟨false, "错误: " ++ normalize_error "boom"⟩)
    ∧ (process_tasks "k" "m" "art" "pa" "pb" (.exn "boom") (.ok "fine")
        [TaskName.task_b, TaskName.task_a]).1 =
      (process_tasks "k" "m" "art" "pa" "pb" (.exn "boom") (.exn "other")
        [TaskName.task_a, TaskName.task_b]).1
    ∧ (process_tasks "k" "m" "art" "pa" "pb" (.exn "boom") (.ok "fine")
        [TaskName.task_b, TaskName.task_a]).2 =
      (process_tasks "k" "m" "art" "pa" "pb" (.ok "other") (.ok "fine")
        [TaskName.task_a, TaskName.task_b]).2 :=
  process_tasks_failure_isolation "k" "m" "art" "pa" "pb" "boom" "fine"
    (.exn "boom") (.ok "other") (.ok "fine") (.exn "other")
    [TaskName.task_b, TaskName.task_a] [TaskName.task_a, TaskName.task_b]
    (by decide) (by decide)

/-- C5: the normalisation taxonomy of the `except` branch: a message
signalling 401/Unauthorized yields the invalid-credentials content; a
message signalling 429/rate-limit wording (and none of the earlier
signals) yields the retry-later content; a message matching none of the
listed signals yields the raw message prefixed with the generic marker
"错误: ". -/
theorem call_openrouter_taxonomy
    (api_key model system_prompt user_content msg : String) :
    ((strContains msg "401" || strContains msg "Unauthorized") = true →
      call_openrouter api_key model system_prompt user_content (.exn msg) =
        { success := false, content := "错误: API Key 无效或已过期" })
    ∧ ((strContains msg "401" || strContains msg "Unauthorized") = false →
       (strContains msg "402" || strContains msg "Payment") = false →
       (strContains msg "429" || strContains (lower msg) "rate") = true →
      call_openrouter api_key model system_prompt user_content (.exn msg) =
        { success := false, content := "错误: 请求频率过高，请稍后重试" })
    ∧ ((strContains msg "401" || strContains msg "Unauthorized") = false →
       (strContains msg "402" || strContains msg "Payment") = false →
       (strContains msg "429" || strContains (lower msg) "rate") = false →
       strContains (lower msg) "timeout" = false →
      call_openrouter api_key model system_prompt user_content (.exn msg) =
        { success := false, content := "错误: " ++ msg }) := by
  refine ⟨fun h1 => ?_, fun h1 h2 h3 => ?_, fun h1 h2 h3 h4 => ?_⟩
  all_goals simp [call_openrouter, normalize_error, *]

/-- C5 witness: a 401 message, a 429 message and an unmatched message. -/
theorem call_openrouter_taxonomy_witness :
    call_openrouter "k" "m" "s" "u" (.exn "Error code: 401 - Unauthorized") =
      { success := false, content := "错误: API Key 无效或已过期" }
    ∧ call_openrouter "k" "m" "s" "u" (.exn "Error code: 429 - Too Many Requests") =
      { success := false, content := "错误: 请求频率过高，请稍后重试" }
    ∧ call_openrouter "k" "m" "s" "u" (.exn "boom") =
      { success := false, content := "错误: boom" } :=
  ⟨(call_openrouter_taxonomy "k" "m" "s" "u" "Error code: 401 - Unauthorized").1
      (by decide),
   (call_openrouter_taxonomy "k" "m" "s" "u" "Error code: 429 - Too Many Requests").2.1
      (by decide) (by decide) (by decide),
   (call_openrouter_taxonomy "k" "m" "s" "u" "boom").2.2
      (by decide) (by decide) (by decide) (by decide)⟩

/-- C6: on a successful provider call, `call_openrouter` returns the
success dictionary carrying the first choice's message text, and the one
request it issues has exactly one system message, exactly one user
message (in that order), and sampling temperature 0.7 (7 tenths). -/
theorem call_openrouter_success_shape
    (api_key model system_prompt user_content c : String) :
    call_openrouter api_key model system_prompt user_content (.ok c) =
      { success := true, content := c }
    ∧ requests_issued api_key model system_prompt user_content =
      [build_request model system_prompt user_content]
    ∧ (requests_issued api_key model system_prompt user_content).length = 1
    ∧ (build_request model system_prompt user_content).messages =
      [{ role := "system", content := system_prompt },
       { role := "user", content := user_content }]
    ∧ ((build_request model system_prompt user_content).messages.filter
        (fun cm => cm.role == "system")).length = 1
    ∧ ((build_request model system_prompt user_content).messages.filter
        (fun cm => cm.role == "user")).length = 1
    ∧ (build_request model system_prompt user_content).temperature_tenths = 7 :=
  ⟨rfl, rfl, rfl, rfl, rfl, rfl, rfl⟩

/-- C7: the button branch calls `process_tasks(api_key, selected_model,
article)` with three positional arguments while the function's five
parameters all lack defaults, so every run that passes the two input
validations ends in `TypeError` and never renders a result pair. -/
theorem button_call_type_error (api_key selected_model article : String)
    (oa ob : CallOutcome) (completion_order : List TaskName)
    (hk : api_key ≠ "") (ha : py_strip article ≠ "") :
    button_handler api_key selected_model article oa ob completion_order =
      HandlerOutcome.type_error := by
  unfold button_handler
  rw [if_neg hk, if_neg ha]
  rfl

/-- C7 witness: a non-empty key and article. -/
theorem button_call_type_error_witness :
    ("sk-or-v1-test" : String) ≠ ""
    ∧ py_strip "Hello world" ≠ ""
    ∧ button_handler "sk-or-v1-test" "deepseek/deepseek-chat" "Hello world"
        (.ok "x") (.ok "y") [TaskName.task_a, TaskName.task_b] =
      HandlerOutcome.type_error :=
  ⟨by decide, by decide,
   button_call_type_error "sk-or-v1-test" "deepseek/deepseek-chat" "Hello world"
     (.ok "x") (.ok "y") [TaskName.task_a, TaskName.task_b]
     (by decide) (by decide)⟩

/-- C8: on a parsed response whose extracted id list is non-empty,
`fetch_models` returns that list sorted lexicographically (a sorted
permutation of the ids); on any failure it returns the static
three-element `DEFAULT_MODELS` list. -/
theorem fetch_models_spec (entries : List (Option String)) (ids : List String)
    (msg : String) (hex : extract_ids entries = some ids) (hne : ids ≠ []) :
    List.Sorted (fun a b : String => a.data ≤ b.data)
      (fetch_models (.response entries))
    ∧ (fetch_models (.response entries)).Perm ids
    ∧ fetch_models (.failure msg) = DEFAULT_MODELS
    ∧ DEFAULT_MODELS =
      ["deepseek/deepseek-chat", "anthropic/claude-3.5-sonnet", "openai/gpt-4o"] := by
  have hfm : fetch_models (.response entries) = sorted_strings ids := by
    simp [fetch_models, hex, List.isEmpty_iff, hne]
  refine ⟨?_, ?_, rfl, rfl⟩
  · rw [hfm]
    exact sorted_strings_sorted ids
  · rw [hfm]
    exact sorted_strings_perm ids

/-- C8 witness: two ids arriving out of order, and one failure. -/
theorem fetch_models_spec_witness :
    extract_ids [some "openai/gpt-4o", some "deepseek/deepseek-chat"] =
      some ["openai/gpt-4o", "deepseek/deepseek-chat"]
    ∧ (["openai/gpt-4o", "deepseek/deepseek-chat"] : List String) ≠ []
    ∧ List.Sorted (fun a b : String => a.data ≤ b.data)
      (fetch_models (.response [some "openai/gpt-4o", some "deepseek/deepseek-chat"]))
    ∧ (fetch_models
        (.response [some "openai/gpt-4o", some "deepseek/deepseek-chat"])).Perm
      ["openai/gpt-4o", "deepseek/deepseek-chat"]
    ∧ fetch_models (.failure "connection refused") = DEFAULT_MODELS
    ∧ DEFAULT_MODELS =
      ["deepseek/deepseek-chat", "anthropic/claude-3.5-sonnet", "openai/gpt-4o"] :=
  ⟨rfl, by decide,
   (fetch_models_spec [some "openai/gpt-4o", some "deepseek/deepseek-chat"]
      ["openai/gpt-4o", "deepseek/deepseek-chat"] "connection refused"
      rfl (by decide)).1,
   (fetch_models_spec [some "openai/gpt-4o", some "deepseek/deepseek-chat"]
      ["openai/gpt-4o", "deepseek/deepseek-chat"] "connection refused"
      rfl (by decide)).2.1,
   (fetch_models_spec [some "openai/gpt-4o", some "deepseek/deepseek-chat"]
      ["openai/gpt-4o", "deepseek/deepseek-chat"] "connection refused"
      rfl (by decide)).2.2.1,
   (fetch_models_spec [some "openai/gpt-4o", some "deepseek/deepseek-chat"]
      ["openai/gpt-4o", "deepseek/deepseek-chat"] "connection refused"
      rfl (by decide)).2.2.2⟩

/-- C9: two consecutive failing lookups return the identical static
fallback list, the three default identifiers in the same order. -/
theorem fetch_models_fallback_idempotent (m1 m2 : String) :
    fetch_models (.failure m1) = fetch_models (.failure m2)
    ∧ fetch_models (.failure m1) = DEFAULT_MODELS
    ∧ DEFAULT_MODELS =
      ["deepseek/deepseek-chat", "anthropic/claude-3.5-sonnet", "openai/gpt-4o"] :=
  ⟨rfl, rfl, rfl⟩

/-- C10: the classification chain tests 401/Unauthorized, then
402/Payment, then 429 together with case-insensitive substring "rate",
so any exception whose lower-cased message contains "rate" (for example
inside the word "generate") and matches none of the earlier signals is
reported as the rate-limit message. -/
theorem rate_substring_false_positive
    (api_key model system_prompt user_content msg : String)
    (h401 : strContains msg "401" = false)
    (hU : strContains msg "Unauthorized" = false)
    (h402 : strContains msg "402" = false)
    (hP : strContains msg "Payment" = false)
    (hrate : strContains (lower msg) "rate" = true) :
    call_openrouter api_key model system_prompt user_content (.exn msg) =
      { success := false, content := "错误: 请求频率过高，请稍后重试" } := by
  simp [call_openrouter, normalize_error, h401, hU, h402, hP, hrate]

/-- C10 witness: "Failed to generate a response" contains "rate" inside
"generate" and no throttling signal, yet is reported as rate-limited. -/
theorem rate_substring_false_positive_witness :
    strContains "Failed to generate a response" "401" = false
    ∧ strContains "Failed to generate a response" "Unauthorized" = false
    ∧ strContains "Failed to generate a response" "402" = false
    ∧ strContains "Failed to generate a response" "Payment" = false
    ∧ strContains (lower "Failed to generate a response") "rate" = true
    ∧ call_openrouter "k" "m" "s" "u" (.exn "Failed to generate a response") =
      { success := false, content := "错误: 请求频率过高，请稍后重试" } :=
  ⟨by decide, by decide, by decide, by decide, by decide,
   rate_substring_false_positive "k" "m" "s" "u" "Failed to generate a response"
     (by decide) (by decide) (by decide) (by decide) (by decide)⟩

end App
